import Mathlib

/-!
Shallow embedding of the jarvis-ui conversational core: the backend tool
registry (`backend/services/tool_registry.py` as given in the repository's
design document), the frontend WebSocket client
(`frontend/src/services/websocket.js`), the session utilities
(`frontend/src/utils/session.js`, in its latest-session variant), and the
`Chat` component's message handling.  Machine-level JSON values are embedded
as an inductive `Json` type; network behaviour is passed in explicitly as an
oracle so that every function is total and executable.
-/

/-- JSON values as sent over the wire. -/
inductive Json where
  | null
  | bool (b : Bool)
  | num (n : Int)
  | str (s : String)
  | arr (xs : List Json)
  | obj (fields : List (String × Json))

/-- An outbound HTTP request as issued by `httpx.AsyncClient.post`:
target URL, JSON body, timeout in seconds. -/
structure HttpRequest where
  url : String
  body : Json
  timeoutSeconds : Nat

/-- Behaviour of the network for one outbound call: either the request
raises (connection error, timeout, ...), or a response arrives with a
status code and a body that either parses as JSON or raises on
`response.json()` (carrying the decode-error message). -/
inductive HttpOutcome where
  | netError (msg : String)
  | response (status : Nat) (body : Except String Json)

/-- The built-in (in-process) tool names registered by
`ToolRegistry._register_all_tools`. -/
def builtinToolNames : List String :=
  ["calculator", "get_current_time", "search_memory", "store_memory"]

/-- The n8n infrastructure tool names registered by
`ToolRegistry._register_all_tools`. -/
def n8nInfraToolNames : List String :=
  ["system_status", "docker_control", "service_control",
   "jellyfin_api", "ssh_command", "gemini_cli"]

/-- The n8n workflow-management actions registered by
`ToolRegistry._register_all_tools`. -/
def n8nWorkflowActions : List String :=
  ["list", "get", "create", "update", "delete",
   "activate", "deactivate", "execute"]

/-- All tool names that dispatch to the remote n8n executor. -/
def n8nToolNames : List String :=
  n8nInfraToolNames ++ n8nWorkflowActions.map (fun a => "n8n_workflow_" ++ a)

/-- Every key of `self.tools` after `_register_all_tools`. -/
def registeredToolNames : List String :=
  builtinToolNames ++ n8nToolNames

/-- `call_n8n` from `ToolRegistry._make_n8n_tool`: posts
`{"tool": tool_name, "params": params}` to the configured webhook URL with
`timeout=120.0` and returns `response.json()`.  The returned pair is the
call's outcome (`Except.error` when an exception propagates) together with
the list of HTTP requests issued. -/
def callN8n (n8nUrl : String) (net : HttpOutcome) (toolName : String)
    (params : Json) : Except String Json × List HttpRequest :=
  let req : HttpRequest :=
    ⟨n8nUrl, Json.obj [("tool", Json.str toolName), ("params", params)], 120⟩
  match net with
  | HttpOutcome.netError m => (Except.error m, [req])
  | HttpOutcome.response _ body =>
    match body with
    | Except.error m => (Except.error m, [req])
    | Except.ok b => (Except.ok b, [req])

/-- Environment for one `ToolRegistry.execute` call: the configured n8n
webhook URL, the behaviour of the in-process tools (which may raise), and
the behaviour of the network for the (at most one) outbound call. -/
structure ToolEnv where
  n8nUrl : String
  builtins : String → Json → Except String Json
  net : HttpOutcome

/-- The `{"status": "success", "result": ...}` dictionary built by
`ToolRegistry.execute`. -/
def successResult (r : Json) : Json :=
  Json.obj [("status", Json.str "success"), ("result", r)]

/-- The `{"status": "error", "error": ...}` dictionary built by
`ToolRegistry.execute`. -/
def errorResult (e : String) : Json :=
  Json.obj [("status", Json.str "error"), ("error", Json.str e)]

/-- The structured error returned for an unregistered tool name. -/
def unknownToolError (toolName : String) : Json :=
  errorResult ("Unknown tool: " ++ toolName)

namespace ToolRegistry

/-- `ToolRegistry.execute`: unknown names fail immediately; otherwise the
tool callable runs inside try/except, with any exception converted into a
structured error.  The second component is the list of HTTP requests
issued during the call. -/
def execute (env : ToolEnv) (toolName : String) (params : Json) :
    Json × List HttpRequest :=
  if toolName ∉ registeredToolNames then
    (unknownToolError toolName, [])
  else if toolName ∈ builtinToolNames then
    match env.builtins toolName params with
    | Except.ok r => (successResult r, [])
    | Except.error e => (errorResult e, [])
  else
    match callN8n env.n8nUrl env.net toolName params with
    | (Except.ok r, reqs) => (successResult r, reqs)
    | (Except.error e, reqs) => (errorResult e, reqs)

end ToolRegistry

/-- The event keys present in the `WebSocketClient` constructor's
`this.listeners` object; `on` registers a callback only under these keys. -/
def listenerEventKeys : List String :=
  ["message", "history", "typing", "error", "connect", "disconnect",
   "stream_start", "stream_chunk", "stream_end"]

/-- `WebSocketClient.on`: push the callback (modelled by an identifier)
onto the listener list for the event, if that event key exists. -/
def wsOn (regs : List (String × Nat)) (event : String) (cb : Nat) :
    List (String × Nat) :=
  if event ∈ listenerEventKeys then regs ++ [(event, cb)] else regs

/-- `WebSocketClient.emit`: invoke every callback registered for the event,
in registration order; the result is the list of callbacks invoked. -/
def wsEmit (regs : List (String × Nat)) (event : String) : List Nat :=
  (regs.filter (fun r => r.1 == event)).map (fun r => r.2)

/-- `WebSocketClient.handleMessage`: switch on the incoming `type` field,
emitting the same-named event for the seven handled types and dropping
everything else (the `default` branch only logs).  The result is the list
of callbacks the payload is delivered to. -/
def wsHandleMessage (regs : List (String × Nat)) (t : String) : List Nat :=
  match t with
  | "message" => wsEmit regs "message"
  | "history" => wsEmit regs "history"
  | "typing" => wsEmit regs "typing"
  | "error" => wsEmit regs "error"
  | "stream_start" => wsEmit regs "stream_start"
  | "stream_chunk" => wsEmit regs "stream_chunk"
  | "stream_end" => wsEmit regs "stream_end"
  | _ => []

/-- The event types `handleMessage` dispatches (its switch cases). -/
def wsDispatchedTypes : List String :=
  ["message", "history", "typing", "error",
   "stream_start", "stream_chunk", "stream_end"]

/-- The frame sent by `WebSocketClient.sendMessage`. -/
def sendMessageFrame (content : String) : Json :=
  Json.obj [("type", Json.str "message"), ("content", Json.str content)]

/-- The frame sent by `WebSocketClient.getHistory`. -/
def getHistoryFrame : Json :=
  Json.obj [("type", Json.str "get_history")]

/-- Reconnection-relevant state of `WebSocketClient`. -/
structure WSClientState where
  sessionId : String
  reconnectAttempts : Nat
  maxReconnectAttempts : Nat
  reconnectDelay : Nat

/-- A freshly connected client: `reconnectAttempts = 0`,
`maxReconnectAttempts = 5`, `reconnectDelay = 1000` ms, as in the
constructor. -/
def wsInit (sessionId : String) : WSClientState := ⟨sessionId, 0, 5, 1000⟩

/-- The `onclose` handler: when the close code is not 1000 and fewer than
the maximum reconnect attempts have been used, increment the counter and
schedule `this.connect(this.sessionId)` after
`reconnectDelay * reconnectAttempts` ms; otherwise schedule nothing.
Returns the updated state and the scheduled (delay, sessionId), if any. -/
def wsOnClose (c : WSClientState) (code : Nat) :
    WSClientState × Option (Nat × String) :=
  if code ≠ 1000 ∧ c.reconnectAttempts < c.maxReconnectAttempts then
    let c' : WSClientState :=
      ⟨c.sessionId, c.reconnectAttempts + 1, c.maxReconnectAttempts,
       c.reconnectDelay⟩
    (c', some (c'.reconnectDelay * c'.reconnectAttempts, c'.sessionId))
  else (c, none)

/-- An action the client performs on the wire: opening the connection for a
session, or sending a frame on the open socket. -/
inductive WireAction where
  | connectTo (sessionId : String)
  | send (frame : Json)

/-- The body of the reconnection callback scheduled by `onclose`:
`this.connect(this.sessionId).catch(console.error)` — it opens the
connection and sends nothing. -/
def wsScheduledReconnect (sessionId : String) : List WireAction :=
  [WireAction.connectTo sessionId]

/-- The `Chat` component's `connect` callback: await
`wsClient.connect(sessionId)` and, when it succeeds, call
`wsClient.getHistory()`; a connection failure is caught and only sets the
error banner. -/
def chatConnect (succeeds : Bool) (sessionId : String) : List WireAction :=
  if succeeds then
    [WireAction.connectTo sessionId, WireAction.send getHistoryFrame]
  else [WireAction.connectTo sessionId]

/-- The `Chat` component's listener for the `connect` event: it sets
`isConnected` and clears the error banner, sending nothing on the wire.
State is the pair (isConnected, error banner). -/
def chatHandleConnect (_st : Bool × Option String) :
    (Bool × Option String) × List WireAction :=
  ((true, none), [])

/-- Outcome of the `fetch` in `fetchLatestSession`: the request raises, or
a response arrives with its `ok` flag and a body that either fails to
parse as JSON (`Except.error ()`) or parses to an object whose
`session_id` field is an optional string. -/
inductive FetchLatestOutcome where
  | netError
  | response (ok : Bool) (body : Except Unit (Option String))

/-- `fetchLatestSession` (latest-session variant of `session.js`): returns
the latest session id when the response is OK and its body has a truthy
`session_id` (storing it under the `jarvis_session_id` key), and `null` on
a non-OK status, a missing or falsy `session_id`, a parse failure, or a
network error (every failure path is caught).  State is the localStorage
value of `jarvis_session_id`. -/
def fetchLatestSession (net : FetchLatestOutcome) (store : Option String) :
    Option String × Option String :=
  match net with
  | FetchLatestOutcome.netError => (none, store)
  | FetchLatestOutcome.response ok body =>
    if ok then
      match body with
      | Except.error _ => (none, store)
      | Except.ok sid =>
        match sid with
        | some s => if s ≠ "" then (some s, some s) else (none, store)
        | none => (none, store)
    else (none, store)

/-- `getSessionId`: two-tier resolution — use the backend's latest session
when one is found, otherwise generate a fresh id (`freshId` stands for the
`generateSessionId()` output) and store it. -/
def getSessionId (net : FetchLatestOutcome) (freshId : String)
    (store : Option String) : String × Option String :=
  match fetchLatestSession net store with
  | (some s, store') => (s, store')
  | (none, _) => (freshId, some freshId)

/-- An HTTP API request issued by the frontend session utilities. -/
structure ApiRequest where
  method : String
  path : String
  body : Json

/-- `triggerSessionCleanup`: POST `{new_session_id, min_messages: 2}` to
`/api/session/cleanup`; failures are caught and only logged (`net = none`
models the fetch raising, `some ok` the `response.ok` flag).  Returns the
requests issued and whether cleanup was reported as initiated. -/
def triggerSessionCleanup (newSessionId : String) (net : Option Bool) :
    List ApiRequest × Bool :=
  let req : ApiRequest :=
    ⟨"POST", "/api/session/cleanup",
     Json.obj [("new_session_id", Json.str newSessionId),
               ("min_messages", Json.num 2)]⟩
  match net with
  | none => ([req], false)
  | some ok => ([req], ok)

/-- The field names of a JSON object, in order. -/
def jsonObjKeys : Json → List String
  | Json.obj fields => fields.map (fun f => f.1)
  | _ => []

/-- The sixteen lowercase hexadecimal digit characters in value order (the
output alphabet of `Number.prototype.toString(16)` for 0–15): the decimal
digits followed by the letters from `a`. -/
def hexChars : List Char :=
  (List.range 16).map (fun n => Char.ofNat (if n < 10 then 48 + n else 87 + n))

/-- `v.toString(16)` for a nibble value. -/
def hexDigitN (n : Nat) : Char := hexChars.getD n '0'

/-- The template string of the non-crypto fallback in
`generateSessionId`: `xxxxxxxx-xxxx-4xxx-yxxx-xxxxxxxxxxxx`. -/
def uuidTemplate : List Char :=
  ['x', 'x', 'x', 'x', 'x', 'x', 'x', 'x', '-',
   'x', 'x', 'x', 'x', '-',
   '4', 'x', 'x', 'x', '-',
   'y', 'x', 'x', 'x', '-',
   'x', 'x', 'x', 'x', 'x', 'x', 'x', 'x', 'x', 'x', 'x', 'x']

/-- The `replace(/[xy]/g, ...)` loop of the fallback: each `x` or `y`
consumes one `Math.random()` draw (`rand k % 16` models
`Math.random() * 16 | 0`); an `x` becomes the hex digit of `r`, a `y` the
hex digit of `r & 0x3 | 0x8`; every other character is kept. -/
def fillUuidTemplate (rand : Nat → Nat) : List Char → Nat → List Char
  | [], _ => []
  | c :: cs, k =>
    if c = 'x' then
      hexDigitN (rand k % 16) :: fillUuidTemplate rand cs (k + 1)
    else if c = 'y' then
      hexDigitN ((rand k % 16) &&& 3 ||| 8) :: fillUuidTemplate rand cs (k + 1)
    else c :: fillUuidTemplate rand cs k

/-- The non-crypto fallback path of `generateSessionId`, as the character
list of the produced string. -/
def generateSessionId (rand : Nat → Nat) : List Char :=
  fillUuidTemplate rand uuidTemplate 0

/-- An entry of the `Chat` component's `messages` state.  `serverAssigned`
records whether the entry's id came from the delivered event (`data.id`)
or from the `Date.now()` fallback. -/
structure ChatMsg where
  id : Nat
  serverAssigned : Bool
  role : String
  content : String
  timestamp : Nat
deriving DecidableEq

/-- A delivered `message` event payload; `id` is `none` when the payload
has no `id` field. -/
structure IncomingMsg where
  id : Option Nat
  role : String
  content : String
  timestamp : Nat

/-- JavaScript truthiness of `data.id` (for numbers, `0` and `undefined`
are falsy). -/
def jsTruthyId : Option Nat → Bool
  | none => false
  | some n => n != 0

/-- `data.id || Date.now()`. -/
def idOrNow (o : Option Nat) (now : Nat) : Nat :=
  match o with
  | some n => if n != 0 then n else now
  | none => now

/-- The `Chat` component's `message` listener: drop the event when its id
is truthy and already present in the list, otherwise append one entry. -/
def chatHandleMessage (now : Nat) (prev : List ChatMsg)
    (data : IncomingMsg) : List ChatMsg :=
  if jsTruthyId data.id && prev.any (fun m => data.id == some m.id) then prev
  else
    prev ++ [⟨idOrNow data.id now, jsTruthyId data.id,
              data.role, data.content, data.timestamp⟩]

/-- The ids of the entries whose id was assigned by the server. -/
def serverIds (l : List ChatMsg) : List Nat :=
  (l.filter (fun m => m.serverAssigned)).map (fun m => m.id)

/-- Stored state of one session in the Session Store: its identifier, its
message list (contents only), and whether it has been archived/deleted
from "latest" consideration. -/
structure StoredSession where
  sid : String
  messages : List String
  deleted : Bool

/-- Modelled from the spec: the Session Store backend implementing
`cleanupOlderSessions` is not under `src/` (only the frontend trigger and
the spec describe it).  Following section 4.2: every non-deleted session
other than the excluded one with at least `minMessages` messages has its
message list replaced by a single synthetic summary (the summarization
algorithm is an external collaborator, passed in as `summarize`) and is
then marked archived/deleted; sessions below `minMessages` are deleted
outright. -/
def cleanupOlderSessions (summarize : List String → String)
    (excluding : String) (minMessages : Nat) :
    List StoredSession → List StoredSession
  | [] => []
  | s :: rest =>
    if s.deleted ∨ s.sid = excluding then
      s :: cleanupOlderSessions summarize excluding minMessages rest
    else if minMessages ≤ s.messages.length then
      ⟨s.sid, [summarize s.messages], true⟩ ::
        cleanupOlderSessions summarize excluding minMessages rest
    else cleanupOlderSessions summarize excluding minMessages rest

/-- Claim C1: for every tool name not in the registry and every parameter
payload, `execute` fails immediately with the structured unknown-tool error
and issues no outbound HTTP request. -/
theorem execute_unknown_tool_no_call (env : ToolEnv) (toolName : String)
    (params : Json) (h : toolName ∉ registeredToolNames) :
    ToolRegistry.execute env toolName params = (unknownToolError toolName, []) := by
  simp [ToolRegistry.execute, h]

theorem execute_unknown_tool_no_call_witness :
    ("frobnicate" ∉ registeredToolNames) ∧
      ToolRegistry.execute
          ⟨"http://192.168.1.100:20003/webhook/tool-executor",
           fun _ _ => Except.ok Json.null,
           HttpOutcome.response 200 (Except.ok Json.null)⟩
          "frobnicate" (Json.obj [])
        = (unknownToolError "frobnicate", []) :=
  ⟨by decide,
   execute_unknown_tool_no_call _ "frobnicate" _ (by decide)⟩

/-- Every n8n tool name is registered. -/
theorem mem_registered_of_mem_n8n {t : String} (h : t ∈ n8nToolNames) :
    t ∈ registeredToolNames :=
  List.mem_append_right builtinToolNames h

/-- No n8n tool name collides with a built-in tool name. -/
theorem not_builtin_of_mem_n8n {t : String} (h : t ∈ n8nToolNames) :
    t ∉ builtinToolNames := by
  have hall : ∀ u ∈ n8nToolNames, u ∉ builtinToolNames := by decide
  exact hall t h

/-- Claim C2 counterexample: `call_n8n` never checks the HTTP status code,
so a non-success (500) response whose body parses as JSON is wrapped by
`execute` as a success result, not a structured error. -/
theorem execute_http500_wrapped_as_success :
    ToolRegistry.execute
        ⟨"http://192.168.1.100:20003/webhook/tool-executor",
         fun _ _ => Except.ok Json.null,
         HttpOutcome.response 500 (Except.ok (Json.str "internal server error"))⟩
        "system_status" (Json.obj [("infoType", Json.str "disk")])
      = (successResult (Json.str "internal server error"),
         [⟨"http://192.168.1.100:20003/webhook/tool-executor",
           Json.obj [("tool", Json.str "system_status"),
                     ("params", Json.obj [("infoType", Json.str "disk")])],
           120⟩]) := by
  rfl

/-- Claim C2 (amended): `execute` never raises and always returns either a
structured success or a structured error; for remote tools, a network
error or a malformed (non-JSON) response body yields a structured error
carrying the underlying cause — but the HTTP status code is never
inspected, so a non-success status with a JSON body is returned as a
success result. -/
theorem execute_result_shape_and_remote_error (env : ToolEnv)
    (toolName : String) (params : Json) :
    ((∃ r, (ToolRegistry.execute env toolName params).1 = successResult r) ∨
      (∃ e, (ToolRegistry.execute env toolName params).1 = errorResult e)) ∧
    (∀ m, toolName ∈ n8nToolNames → env.net = HttpOutcome.netError m →
      ToolRegistry.execute env toolName params
        = (errorResult m,
           [⟨env.n8nUrl,
             Json.obj [("tool", Json.str toolName), ("params", params)], 120⟩])) ∧
    (∀ st m, toolName ∈ n8nToolNames →
      env.net = HttpOutcome.response st (Except.error m) →
      ToolRegistry.execute env toolName params
        = (errorResult m,
           [⟨env.n8nUrl,
             Json.obj [("tool", Json.str toolName), ("params", params)], 120⟩])) := by
  refine ⟨?_, ?_, ?_⟩
  · by_cases h1 : toolName ∉ registeredToolNames
    · right
      exact ⟨"Unknown tool: " ++ toolName,
        by simp [ToolRegistry.execute, h1, unknownToolError]⟩
    · by_cases h2 : toolName ∈ builtinToolNames
      · cases hb : env.builtins toolName params with
        | ok r =>
          left
          exact ⟨r, by simp [ToolRegistry.execute, h1, h2, hb]⟩
        | error e =>
          right
          exact ⟨e, by simp [ToolRegistry.execute, h1, h2, hb]⟩
      · cases hn : env.net with
        | netError m =>
          right
          exact ⟨m, by simp [ToolRegistry.execute, h1, h2, hn, callN8n]⟩
        | response st body =>
          cases body with
          | error m =>
            right
            exact ⟨m, by simp [ToolRegistry.execute, h1, h2, hn, callN8n]⟩
          | ok b =>
            left
            exact ⟨b, by simp [ToolRegistry.execute, h1, h2, hn, callN8n]⟩
  · intro m hmem hnet
    have hreg := mem_registered_of_mem_n8n hmem
    have hnb := not_builtin_of_mem_n8n hmem
    simp only [ToolRegistry.execute]
    rw [if_neg (not_not_intro hreg), if_neg hnb]
    simp [callN8n, hnet]
  · intro st m hmem hnet
    have hreg := mem_registered_of_mem_n8n hmem
    have hnb := not_builtin_of_mem_n8n hmem
    simp only [ToolRegistry.execute]
    rw [if_neg (not_not_intro hreg), if_neg hnb]
    simp [callN8n, hnet]

theorem execute_result_shape_and_remote_error_witness :
    ToolRegistry.execute
        ⟨"http://n8n.local", fun _ _ => Except.ok Json.null,
         HttpOutcome.netError "connection refused"⟩
        "ssh_command" (Json.obj [])
      = (errorResult "connection refused",
         [⟨"http://n8n.local",
           Json.obj [("tool", Json.str "ssh_command"),
                     ("params", Json.obj [])], 120⟩]) :=
  (execute_result_shape_and_remote_error
      ⟨"http://n8n.local", fun _ _ => Except.ok Json.null,
       HttpOutcome.netError "connection refused"⟩
      "ssh_command" (Json.obj [])).2.1
    "connection refused" (by decide) rfl

/-- Claim C6: every remote tool invocation issues exactly one outbound HTTP
request, to the configured endpoint, with the parameters wrapped in the
`{tool, params}` envelope, under the hard 120-second timeout. -/
theorem execute_remote_single_enveloped_request (env : ToolEnv)
    (toolName : String) (params : Json) (h : toolName ∈ n8nToolNames) :
    (ToolRegistry.execute env toolName params).2 =
      [⟨env.n8nUrl,
        Json.obj [("tool", Json.str toolName), ("params", params)], 120⟩] := by
  have hreg := mem_registered_of_mem_n8n h
  have hnb := not_builtin_of_mem_n8n h
  simp only [ToolRegistry.execute]
  rw [if_neg (not_not_intro hreg), if_neg hnb]
  cases hn : env.net with
  | netError m => simp [callN8n, hn]
  | response st body =>
    cases body with
    | error m => simp [callN8n, hn]
    | ok b => simp [callN8n, hn]

theorem execute_remote_single_enveloped_request_witness :
    (ToolRegistry.execute
        ⟨"http://192.168.1.100:20003/webhook/tool-executor",
         fun _ _ => Except.ok Json.null,
         HttpOutcome.response 200 (Except.ok (Json.str "ok"))⟩
        "docker_control" (Json.obj [("action", Json.str "ps")])).2
      = [⟨"http://192.168.1.100:20003/webhook/tool-executor",
          Json.obj [("tool", Json.str "docker_control"),
                    ("params", Json.obj [("action", Json.str "ps")])], 120⟩] :=
  execute_remote_single_enveloped_request _ "docker_control" _ (by decide)

/-- Claim C3 counterexample: the client does not implement the section 4.4
wire protocol — registering a listener under the `tool_call` event type is
a silent no-op (that key does not exist in the listeners table), and an
incoming `tool_call` event is delivered to nobody (it falls to the switch's
`default` branch) even when a registration is forced into the table. -/
theorem wsClient_drops_tool_call_events :
    wsOn [] "tool_call" 0 = [] ∧
    wsHandleMessage (wsOn [] "tool_call" 0) "tool_call" = [] ∧
    wsHandleMessage [("tool_call", 0)] "tool_call" = [] := by
  refine ⟨?_, ?_, ?_⟩ <;> rfl

/-- Equation form of the `handleMessage` switch: handled types are emitted
as the same-named event, everything else is dropped. -/
theorem wsHandleMessage_eq (regs : List (String × Nat)) (t : String) :
    wsHandleMessage regs t =
      if t ∈ wsDispatchedTypes then wsEmit regs t else [] := by
  unfold wsHandleMessage
  split <;> simp_all [wsDispatchedTypes]

/-- Claim C3 (amended): `handleMessage` delivers an incoming event to the
registered listeners of the same-named type exactly for the seven handled
types `message`, `history`, `typing`, `error`, `stream_start`,
`stream_chunk` and `stream_end`, and drops every other incoming type — in
particular the section 4.4 outbound event types `stream_token`,
`tool_call` and `tool_result` are not among the handled types, and the
client offers `send_message` and `get_history` intents but no `stop`
intent. -/
theorem wsClient_event_dispatch (regs : List (String × Nat)) (t : String) :
    (t ∈ wsDispatchedTypes → wsHandleMessage regs t = wsEmit regs t) ∧
    (t ∉ wsDispatchedTypes → wsHandleMessage regs t = []) ∧
    ("stream_token" ∉ wsDispatchedTypes ∧
     "tool_call" ∉ wsDispatchedTypes ∧
     "tool_result" ∉ wsDispatchedTypes) := by
  refine ⟨?_, ?_, by decide⟩
  · intro h
    rw [wsHandleMessage_eq, if_pos h]
  · intro h
    rw [wsHandleMessage_eq, if_neg h]

theorem wsClient_event_dispatch_witness :
    wsHandleMessage [("history", 3), ("message", 7)] "message" = [7] := by
  have h := (wsClient_event_dispatch [("history", 3), ("message", 7)]
    "message").1 (by decide)
  rw [h]
  rfl

/-- Claim C7 counterexample: the callback scheduled by `onclose` after an
unexpected disconnect only reopens the connection — it requests no
history, and the `Chat` component's `connect`-event listener sends nothing
either, so a successful automatic reconnect is not followed by a
`get_history` intent. -/
theorem auto_reconnect_requests_no_history :
    (wsOnClose (wsInit "s1") 1006).2 = some (1000, "s1") ∧
    wsScheduledReconnect "s1" = [WireAction.connectTo "s1"] ∧
    WireAction.send getHistoryFrame ∉ wsScheduledReconnect "s1" ∧
    (chatHandleConnect (false, none)).2 = [] := by
  refine ⟨rfl, rfl, ?_, rfl⟩
  simp [wsScheduledReconnect]

/-- Claim C7 (amended): on a close with code other than 1000, with fewer
than the maximum reconnect attempts used, `onclose` increments the attempt
counter and schedules a reconnection to the same session after
`reconnectDelay * attempts` ms; on an intentional close (code 1000) it
schedules nothing; the `Chat` component's connect flow requests the
history after a successful connect, while the scheduled automatic
reconnection callback only reopens the connection. -/
theorem wsOnClose_reconnect_policy (c : WSClientState) (code : Nat) :
    (code ≠ 1000 → c.reconnectAttempts < c.maxReconnectAttempts →
      wsOnClose c code =
        (⟨c.sessionId, c.reconnectAttempts + 1, c.maxReconnectAttempts,
          c.reconnectDelay⟩,
         some (c.reconnectDelay * (c.reconnectAttempts + 1), c.sessionId))) ∧
    (code = 1000 → (wsOnClose c code).2 = none) ∧
    (∀ sid, WireAction.send getHistoryFrame ∈ chatConnect true sid) := by
  refine ⟨?_, ?_, ?_⟩
  · intro h1 h2
    simp [wsOnClose, h1, h2]
  · intro h
    subst h
    simp [wsOnClose]
  · intro sid
    simp [chatConnect]

theorem wsOnClose_reconnect_policy_witness :
    wsOnClose (wsInit "s7") 1006 = (⟨"s7", 1, 5, 1000⟩, some (1000, "s7")) ∧
    (wsOnClose ⟨"s7", 2, 5, 1000⟩ 1000).2 = none ∧
    WireAction.send getHistoryFrame ∈ chatConnect true "s7" :=
  ⟨(wsOnClose_reconnect_policy (wsInit "s7") 1006).1 (by decide) (by decide),
   (wsOnClose_reconnect_policy ⟨"s7", 2, 5, 1000⟩ 1000).2.1 rfl,
   (wsOnClose_reconnect_policy (wsInit "s7") 1006).2.2 "s7"⟩

/-- Claim C4: two-tier session resolution — when the latest-session fetch
finds a session id, `getSessionId` returns exactly that id, otherwise it
returns the freshly generated id; afterwards localStorage holds the
returned id; and an OK response whose body carries a (non-empty)
`session_id` is exactly the found case.  `fetchLatestSession` is a total
function (every failure path is caught), so it never throws. -/
theorem getSessionId_two_tier (net : FetchLatestOutcome) (freshId : String)
    (store : Option String) :
    ((getSessionId net freshId store).2
        = some (getSessionId net freshId store).1) ∧
    (∀ s, (fetchLatestSession net store).1 = some s →
      (getSessionId net freshId store).1 = s) ∧
    ((fetchLatestSession net store).1 = none →
      (getSessionId net freshId store).1 = freshId) ∧
    (∀ s, s ≠ "" →
      net = FetchLatestOutcome.response true (Except.ok (some s)) →
      fetchLatestSession net store = (some s, some s)) := by
  refine ⟨?_, ?_, ?_, ?_⟩
  · cases net with
    | netError => rfl
    | response ok body =>
      cases ok with
      | false => rfl
      | true =>
        cases body with
        | error u => rfl
        | ok sid =>
          cases sid with
          | none => rfl
          | some s =>
            by_cases hs : s = ""
            · simp [getSessionId, fetchLatestSession, hs]
            · simp [getSessionId, fetchLatestSession, hs]
  · intro s h
    unfold getSessionId
    cases hfl : fetchLatestSession net store with
    | mk o st =>
      rw [hfl] at h
      cases o with
      | some a =>
        simp only at h
        cases h
        simp
      | none => simp at h
  · intro h
    unfold getSessionId
    cases hfl : fetchLatestSession net store with
    | mk o st =>
      rw [hfl] at h
      cases o with
      | some a => simp at h
      | none => simp
  · intro s hs hnet
    subst hnet
    simp [fetchLatestSession, hs]

theorem getSessionId_two_tier_witness :
    (getSessionId (FetchLatestOutcome.response true (Except.ok (some "sess-42")))
        "fresh-id" none).1 = "sess-42" := by
  have hfl := (getSessionId_two_tier
      (FetchLatestOutcome.response true (Except.ok (some "sess-42")))
      "fresh-id" none).2.2.2 "sess-42" (by decide) rfl
  exact (getSessionId_two_tier _ "fresh-id" none).2.1 "sess-42" (by rw [hfl])

/-- Claim C5 counterexample: the session-cleanup POST body's field for the
excluded session is named `new_session_id`, not `exclude_session_id` — the
field set the endpoint is specified to accept does not occur in the body
sent. -/
theorem cleanup_body_field_is_new_session_id :
    (triggerSessionCleanup "sess-new" (some true)).1
      = [⟨"POST", "/api/session/cleanup",
          Json.obj [("new_session_id", Json.str "sess-new"),
                    ("min_messages", Json.num 2)]⟩] ∧
    jsonObjKeys (Json.obj [("new_session_id", Json.str "sess-new"),
                           ("min_messages", Json.num 2)])
      = ["new_session_id", "min_messages"] ∧
    "exclude_session_id" ∉ (["new_session_id", "min_messages"] : List String) := by
  refine ⟨rfl, rfl, by decide⟩

/-- Claim C5 (amended): every invocation of the client's session-cleanup
trigger sends exactly one POST to `/api/session/cleanup` whose JSON body
is an object with exactly the fields `new_session_id` (the session to
exclude from cleanup) and `min_messages`; the response, success or
failure, is only logged. -/
theorem triggerSessionCleanup_request_shape (sid : String)
    (net : Option Bool) :
    (triggerSessionCleanup sid net).1
      = [⟨"POST", "/api/session/cleanup",
          Json.obj [("new_session_id", Json.str sid),
                    ("min_messages", Json.num 2)]⟩] := by
  cases net <;> rfl

/-- Claim C8: `cleanupOlderSessions` is idempotent — for every store
state, excluded session id and message threshold, running the cleanup
twice in succession produces the same end state as running it once;
re-running it against already-cleaned sessions is a no-op. -/
theorem cleanupOlderSessions_idempotent (summarize : List String → String)
    (excluding : String) (minMessages : Nat) (store : List StoredSession) :
    cleanupOlderSessions summarize excluding minMessages
        (cleanupOlderSessions summarize excluding minMessages store)
      = cleanupOlderSessions summarize excluding minMessages store := by
  induction store with
  | nil => rfl
  | cons s rest ih =>
    by_cases h1 : s.deleted ∨ s.sid = excluding
    · have e1 : cleanupOlderSessions summarize excluding minMessages (s :: rest)
          = s :: cleanupOlderSessions summarize excluding minMessages rest := by
        simp only [cleanupOlderSessions]
        rw [if_pos h1]
      rw [e1]
      have e2 : cleanupOlderSessions summarize excluding minMessages
            (s :: cleanupOlderSessions summarize excluding minMessages rest)
          = s :: cleanupOlderSessions summarize excluding minMessages
              (cleanupOlderSessions summarize excluding minMessages rest) := by
        simp only [cleanupOlderSessions]
        rw [if_pos h1]
      rw [e2, ih]
    · by_cases h2 : minMessages ≤ s.messages.length
      · have e1 : cleanupOlderSessions summarize excluding minMessages (s :: rest)
            = ⟨s.sid, [summarize s.messages], true⟩ ::
                cleanupOlderSessions summarize excluding minMessages rest := by
          simp only [cleanupOlderSessions]
          rw [if_neg h1, if_pos h2]
        rw [e1]
        have e2 : cleanupOlderSessions summarize excluding minMessages
              ((⟨s.sid, [summarize s.messages], true⟩ : StoredSession) ::
                cleanupOlderSessions summarize excluding minMessages rest)
            = ⟨s.sid, [summarize s.messages], true⟩ ::
                cleanupOlderSessions summarize excluding minMessages
                  (cleanupOlderSessions summarize excluding minMessages rest) := by
          simp [cleanupOlderSessions]
        rw [e2, ih]
      · have e1 : cleanupOlderSessions summarize excluding minMessages (s :: rest)
            = cleanupOlderSessions summarize excluding minMessages rest := by
          simp only [cleanupOlderSessions]
          rw [if_neg h1, if_neg h2]
        rw [e1, ih]

/-- The hex digit of any nibble lies in the lowercase hex alphabet. -/
theorem hexDigitN_mod_mem (n : Nat) : hexDigitN (n % 16) ∈ hexChars := by
  have h : n % 16 < 16 := Nat.mod_lt _ (by norm_num)
  have hall : ∀ k < 16, hexDigitN k ∈ hexChars := by decide
  exact hall _ h

/-- The `y` digit `r & 0x3 | 0x8` of the fallback is one of 8, 9, a, b. -/
theorem hexDigitY_mem (n : Nat) :
    hexDigitN ((n % 16) &&& 3 ||| 8) ∈ (['8', '9', 'a', 'b'] : List Char) := by
  have h : n % 16 < 16 := Nat.mod_lt _ (by norm_num)
  have hall : ∀ k < 16,
      hexDigitN (k &&& 3 ||| 8) ∈ (['8', '9', 'a', 'b'] : List Char) := by
    decide
  exact hall _ h

/-- The `y` digit is in particular a hex digit. -/
theorem hexDigitY_mem_hex (n : Nat) :
    hexDigitN ((n % 16) &&& 3 ||| 8) ∈ hexChars := by
  have h : n % 16 < 16 := Nat.mod_lt _ (by norm_num)
  have hall : ∀ k < 16, hexDigitN (k &&& 3 ||| 8) ∈ hexChars := by decide
  exact hall _ h

/-- Claim C9: for every sequence of `Math.random` draws, the non-crypto
fallback of `generateSessionId` produces 36 characters in 8-4-4-4-12
hyphenated lowercase-hexadecimal form, with the character at index 14
equal to `4` and the character at index 19 one of `8`, `9`, `a`, `b` —
a well-formed UUID v4. -/
theorem generateSessionId_uuid_v4 (rand : Nat → Nat) :
    ∃ a b c d e : List Char,
      generateSessionId rand
        = a ++ '-' :: (b ++ '-' :: (c ++ '-' :: (d ++ '-' :: e))) ∧
      a.length = 8 ∧ b.length = 4 ∧ c.length = 4 ∧ d.length = 4 ∧
      e.length = 12 ∧
      (∀ ch ∈ a, ch ∈ hexChars) ∧ (∀ ch ∈ b, ch ∈ hexChars) ∧
      (∀ ch ∈ c, ch ∈ hexChars) ∧ (∀ ch ∈ d, ch ∈ hexChars) ∧
      (∀ ch ∈ e, ch ∈ hexChars) ∧
      (generateSessionId rand).length = 36 ∧
      (generateSessionId rand).getD 14 ' ' = '4' ∧
      (generateSessionId rand).getD 19 ' ' ∈ (['8', '9', 'a', 'b'] : List Char) := by
  refine ⟨[hexDigitN (rand 0 % 16), hexDigitN (rand 1 % 16),
           hexDigitN (rand 2 % 16), hexDigitN (rand 3 % 16),
           hexDigitN (rand 4 % 16), hexDigitN (rand 5 % 16),
           hexDigitN (rand 6 % 16), hexDigitN (rand 7 % 16)],
          [hexDigitN (rand 8 % 16), hexDigitN (rand 9 % 16),
           hexDigitN (rand 10 % 16), hexDigitN (rand 11 % 16)],
          ['4', hexDigitN (rand 12 % 16), hexDigitN (rand 13 % 16),
           hexDigitN (rand 14 % 16)],
          [hexDigitN ((rand 15 % 16) &&& 3 ||| 8), hexDigitN (rand 16 % 16),
           hexDigitN (rand 17 % 16), hexDigitN (rand 18 % 16)],
          [hexDigitN (rand 19 % 16), hexDigitN (rand 20 % 16),
           hexDigitN (rand 21 % 16), hexDigitN (rand 22 % 16),
           hexDigitN (rand 23 % 16), hexDigitN (rand 24 % 16),
           hexDigitN (rand 25 % 16), hexDigitN (rand 26 % 16),
           hexDigitN (rand 27 % 16), hexDigitN (rand 28 % 16),
           hexDigitN (rand 29 % 16), hexDigitN (rand 30 % 16)],
          ?_, rfl, rfl, rfl, rfl, rfl, ?_, ?_, ?_, ?_, ?_, rfl, rfl, ?_⟩
  · rfl
  · intro ch hch
    simp only [List.mem_cons, List.not_mem_nil, or_false] at hch
    rcases hch with rfl | rfl | rfl | rfl | rfl | rfl | rfl | rfl <;>
      exact hexDigitN_mod_mem _
  · intro ch hch
    simp only [List.mem_cons, List.not_mem_nil, or_false] at hch
    rcases hch with rfl | rfl | rfl | rfl <;> exact hexDigitN_mod_mem _
  · intro ch hch
    simp only [List.mem_cons, List.not_mem_nil, or_false] at hch
    rcases hch with rfl | rfl | rfl | rfl
    · decide
    · exact hexDigitN_mod_mem _
    · exact hexDigitN_mod_mem _
    · exact hexDigitN_mod_mem _
  · intro ch hch
    simp only [List.mem_cons, List.not_mem_nil, or_false] at hch
    rcases hch with rfl | rfl | rfl | rfl
    · exact hexDigitY_mem_hex _
    · exact hexDigitN_mod_mem _
    · exact hexDigitN_mod_mem _
    · exact hexDigitN_mod_mem _
  · intro ch hch
    simp only [List.mem_cons, List.not_mem_nil, or_false] at hch
    rcases hch with rfl | rfl | rfl | rfl | rfl | rfl | rfl | rfl | rfl | rfl | rfl | rfl <;>
      exact hexDigitN_mod_mem _
  · exact hexDigitY_mem (rand 15)

/-- Claim C10: the `Chat` message list never gains a duplicate
server-assigned id — delivering a `message` event whose (defined, truthy)
id already equals the id of a list entry leaves the list unchanged, every
other delivery appends exactly one entry, and pairwise distinctness of the
server-assigned ids is preserved by every delivery. -/
theorem chatHandleMessage_no_duplicate_ids (now : Nat) (prev : List ChatMsg)
    (data : IncomingMsg) :
    (∀ i, data.id = some i → i ≠ 0 → (∃ m ∈ prev, m.id = i) →
      chatHandleMessage now prev data = prev) ∧
    ((jsTruthyId data.id && prev.any (fun m => data.id == some m.id)) = false →
      chatHandleMessage now prev data
        = prev ++ [⟨idOrNow data.id now, jsTruthyId data.id,
                    data.role, data.content, data.timestamp⟩]) ∧
    ((serverIds prev).Nodup →
      (serverIds (chatHandleMessage now prev data)).Nodup) := by
  refine ⟨?_, ?_, ?_⟩
  · rintro i hi h0 ⟨m, hm, hid⟩
    have hg : (jsTruthyId data.id
        && prev.any (fun m => data.id == some m.id)) = true := by
      rw [hi]
      simp only [jsTruthyId, List.any_eq_true, Bool.and_eq_true]
      exact ⟨by simpa using h0, m, hm, by simp [hid]⟩
    simp only [chatHandleMessage, if_pos hg]
  · intro h
    unfold chatHandleMessage
    rw [if_neg (fun hc => Bool.false_ne_true (h ▸ hc))]
  · intro hnd
    by_cases hg : (jsTruthyId data.id
        && prev.any (fun m => data.id == some m.id)) = true
    · simp only [chatHandleMessage, if_pos hg]
      exact hnd
    · have hg' : (jsTruthyId data.id
          && prev.any (fun m => data.id == some m.id)) = false :=
        eq_false_of_ne_true hg
      simp only [chatHandleMessage, if_neg hg]
      cases ht : jsTruthyId data.id with
      | false =>
        have hserv : serverIds (prev ++ [⟨idOrNow data.id now, false,
            data.role, data.content, data.timestamp⟩])
            = serverIds prev := by
          unfold serverIds
          rw [List.filter_append, List.map_append]
          simp
        rw [hserv]
        exact hnd
      | true =>
        obtain ⟨i, hi⟩ : ∃ i, data.id = some i := by
          cases hdi : data.id with
          | none => rw [hdi] at ht; simp [jsTruthyId] at ht
          | some j => exact ⟨j, rfl⟩
        have hi0 : i ≠ 0 := by
          rw [hi] at ht
          simpa [jsTruthyId] using ht
        have hany : prev.any (fun m => data.id == some m.id) = false := by
          rw [ht, Bool.true_and] at hg'
          exact hg'
        have hnotmem : ∀ m ∈ prev, m.id ≠ i := by
          intro m hm heq
          have htrue : prev.any (fun m => data.id == some m.id) = true := by
            rw [List.any_eq_true]
            exact ⟨m, hm, by simp [hi, heq]⟩
          rw [htrue] at hany
          cases hany
        have hid_entry : idOrNow data.id now = i := by
          rw [hi]
          simp [idOrNow, hi0]
        have hserv : serverIds (prev ++ [⟨idOrNow data.id now, true,
            data.role, data.content, data.timestamp⟩])
            = serverIds prev ++ [idOrNow data.id now] := by
          unfold serverIds
          rw [List.filter_append, List.map_append]
          simp
        rw [hserv, hid_entry, List.nodup_append]
        refine ⟨hnd, List.nodup_singleton _, ?_⟩
        intro x hx hx2
        simp only [List.mem_singleton] at hx2
        subst hx2
        unfold serverIds at hx
        simp only [List.mem_map, List.mem_filter] at hx
        obtain ⟨m, ⟨hm, _⟩, hmid⟩ := hx
        exact hnotmem m hm hmid

theorem chatHandleMessage_no_duplicate_ids_witness :
    chatHandleMessage 999 [⟨5, true, "user", "hi", 100⟩]
        ⟨some 5, "user", "hi", 100⟩
      = [⟨5, true, "user", "hi", 100⟩] :=
  (chatHandleMessage_no_duplicate_ids 999 [⟨5, true, "user", "hi", 100⟩]
      ⟨some 5, "user", "hi", 100⟩).1 5 rfl (by decide)
    ⟨⟨5, true, "user", "hi", 100⟩, by simp, rfl⟩

theorem generateSessionId_uuid_v4_witness :
    (generateSessionId (fun k => k)).getD 14 ' ' = '4' ∧
    (generateSessionId (fun k => k)).getD 19 ' '
      ∈ (['8', '9', 'a', 'b'] : List Char) := by
  obtain ⟨a, b, c, d, e, -, -, -, -, -, -, -, -, -, -, -, -, h14, h19⟩ :=
    generateSessionId_uuid_v4 (fun k => k)
  exact ⟨h14, h19⟩
